import Mathlib

/-!
Verification development for the pytree schema engine of the PlugNPlay
repository. The engine lives in two Python modules:

* `src/irnodes.py` — schema nodes (`LiteralNode`, `AbstractLiteralNode`,
  `BranchNode`, `AbstractBranchNode` and their subclasses), the `test` /
  `validate` / `intersect` operations, the class-level type registries, and
  the derivation functions `type_hint_to_schema` / `pytree_to_schema`.
* `src/IR/nodes.py` — a second node hierarchy (`SchemaNode` with `Literal`,
  `DictNode`, `ListNode`, `AnyOfNode`) carrying `walk` and the transform
  engine.

The embedding below transcribes those modules. Python values that may occur
in a pytree (the four literal kinds plus nested lists and dicts) are modelled
by the mutual inductive family `PyTree`; Python floats are modelled by `ℚ`,
which is faithful for every non-NaN float since the code only ever compares
them with `==`, `<` and `>`. Python's numeric cross-kind equality
(`True == 1`, `1 == 1.0`) and the fact that `bool` is a subclass of `int`
are modelled explicitly, because `isinstance` checks and dict-key lookups in
the source depend on them. Exceptions are modelled with `Except`: the single
exception class `IRNodeError` of irnodes.py (the specification's
`ConflictingConstraint` for the intersection paths) together with the
builtin Python exceptions (`KeyError`, `AttributeError`, `TypeError`) that
some code paths raise.
-/

/-- Python exceptions that the embedded code can raise. -/
inductive PyError where
  /-- `IRNodeError` of irnodes.py; on the intersection paths this realizes
  the specification's `ConflictingConstraint`. -/
  | irNodeError
  /-- Python `KeyError` from indexing a dict with a missing key. -/
  | keyError
  /-- Python `AttributeError` from reading a missing attribute. -/
  | attributeError
  /-- Python `TypeError` from calling a function with a bad argument list. -/
  | typeError
deriving DecidableEq

namespace Irnodes

/-- Python literal values of the four pytree leaf kinds (int, bool, str,
float). Floats are modelled by `ℚ` (exact for all non-NaN floats under the
comparisons the source performs). -/
inductive Leaf where
  | int (n : ℤ)
  | bool (b : Bool)
  | str (s : String)
  | float (q : ℚ)
deriving DecidableEq

/-- Numeric value of a Python bool: `True == 1` and `False == 0`. -/
def bint (b : Bool) : ℤ := if b then 1 else 0

/-- Python `==` on leaf values. The numeric kinds int, bool and float compare
across kinds by numeric value; strings only equal strings. -/
def leafPyEq : Leaf → Leaf → Bool
  | .int a, .int b => decide (a = b)
  | .int a, .bool b => decide (a = bint b)
  | .bool a, .int b => decide (bint a = b)
  | .int a, .float q => decide ((a : ℚ) = q)
  | .float q, .int a => decide (q = (a : ℚ))
  | .bool a, .bool b => decide (a = b)
  | .bool a, .float q => decide ((bint a : ℚ) = q)
  | .float q, .bool a => decide (q = (bint a : ℚ))
  | .float p, .float q => decide (p = q)
  | .str s, .str t => decide (s = t)
  | _, _ => false

mutual
/-- A pytree: a Python value built from the four leaf kinds, lists, and
dicts whose keys are leaves (the module's stated pytree alphabet). -/
inductive PyTree where
  | leaf (l : Leaf)
  | list (xs : PyList)
  | dict (es : PyEntries)
/-- A Python list of pytrees (insertion order preserved). -/
inductive PyList where
  | nil
  | cons (hd : PyTree) (tl : PyList)
/-- The entries of a Python dict of pytrees, in insertion order. -/
inductive PyEntries where
  | nil
  | cons (key : Leaf) (val : PyTree) (tl : PyEntries)
end

/-- `len` of a Python list. -/
def PyList.length : PyList → Nat
  | .nil => 0
  | .cons _ tl => tl.length + 1

/-- Elements of a `PyList` as a Lean list. -/
def PyList.toList : PyList → List PyTree
  | .nil => []
  | .cons x tl => x :: tl.toList

/-- `len` of a Python dict. -/
def PyEntries.length : PyEntries → Nat
  | .nil => 0
  | .cons _ _ tl => tl.length + 1

/-- Entries of a Python dict as a Lean list of pairs. -/
def PyEntries.toList : PyEntries → List (Leaf × PyTree)
  | .nil => []
  | .cons k v tl => (k, v) :: tl.toList

/-- Python `d[key]` / `key in d` on a pytree dict: find the entry whose key
is Python-equal (`==`) to the query. -/
def PyEntries.lookup : PyEntries → Leaf → Option PyTree
  | .nil, _ => none
  | .cons k v tl, q => if leafPyEq k q then some v else tl.lookup q

mutual
/-- The schema-node classes of irnodes.py, one constructor per concrete
class. `LiteralNode` subclasses carry their bound `value`; the abstract
int/float nodes carry their optional `min_value` / `max_value`. -/
inductive IRNode where
  | intNode (value : ℤ)
  | boolNode (value : Bool)
  | strNode (value : String)
  | floatNode (value : ℚ)
  | abstractIntNode (min_value max_value : Option ℤ)
  | abstractBoolNode
  | abstractStrNode
  | abstractFloatNode (min_value max_value : Option ℚ)
  | abstractAnyNode
  | dictNode (schema : DictSchema)
  | listNode (schema : ListSchema)
  | abstractDictNode (key_schema value_schema : IRNode)
  | abstractListNode (item_schema : IRNode)
  | unionNode (schemas : ListSchema)
/-- The `schema` dict of a `DictNode`: ordered entries mapping a
`LiteralNode` key (determined by its kind and value, i.e. a `Leaf`) to a
child node. -/
inductive DictSchema where
  | nil
  | cons (key : Leaf) (val : IRNode) (tl : DictSchema)
/-- The `schema` list of a `ListNode` (also used for `UnionNode.schemas`). -/
inductive ListSchema where
  | nil
  | cons (hd : IRNode) (tl : ListSchema)
end

/-- `list(self.schema.keys())` of a `DictNode`. Two `LiteralNode` keys are
equal exactly when they have the same kind and the same value, which is
structural equality of `Leaf`. -/
def DictSchema.keys : DictSchema → List Leaf
  | .nil => []
  | .cons k _ tl => k :: tl.keys

/-- `len(self.schema)` of a `DictNode`. -/
def DictSchema.length : DictSchema → Nat
  | .nil => 0
  | .cons _ _ tl => tl.length + 1

/-- `other.schema[key]` of a `DictNode`: lookup by `LiteralNode` key
equality (kind and value). -/
def DictSchema.lookup : DictSchema → Leaf → Option IRNode
  | .nil, _ => none
  | .cons k v tl, q => if k = q then some v else tl.lookup q

/-- `len(self.schema)` of a `ListNode`. -/
def ListSchema.length : ListSchema → Nat
  | .nil => 0
  | .cons _ tl => tl.length + 1

/-- `AbstractIntNode.check_special_cases` as a boolean: no bound that is set
is violated (`pytree < min_value` or `pytree > max_value`). -/
def intInBounds (mn mx : Option ℤ) (m : ℤ) : Bool :=
  (match mn with
   | none => true
   | some a => decide (a ≤ m)) &&
  (match mx with
   | none => true
   | some b => decide (m ≤ b))

/-- `AbstractFloatNode.check_special_cases` as a boolean. -/
def ratInBounds (mn mx : Option ℚ) (q : ℚ) : Bool :=
  (match mn with
   | none => true
   | some a => decide (a ≤ q)) &&
  (match mx with
   | none => true
   | some b => decide (q ≤ b))

mutual
/-- `test` of irnodes.py, dispatched over the node kinds. Each arm
transcribes the `test` method of the corresponding class:

* `LiteralNode.test`: `isinstance(pytree, self.pytype)` then
  `pytree == self.value`. Since Python's `bool` is a subclass of `int`, an
  `IntNode` also admits a bool whose numeric value equals the bound value;
  the other three kinds admit only their own kind.
* `AbstractLiteralNode.test`: `isinstance` then `check_special_cases`.
* `DictNode.test`: dict of the same `len`, every schema key present, each
  looked-up value passing the child schema.
* `ListNode.test`: list of the same `len`, `zip`ped children passing.
* `AbstractDictNode.test` / `AbstractListNode.test`: every key/value (or
  item) passing the fixed child schema(s), any size.
* `UnionNode.test`: `any` alternative passing. -/
def test : IRNode → PyTree → Bool
  | .intNode n, .leaf (.int m) => decide (m = n)
  | .intNode n, .leaf (.bool b) => decide (bint b = n)
  | .intNode _, _ => false
  | .boolNode b, .leaf (.bool c) => c == b
  | .boolNode _, _ => false
  | .strNode s, .leaf (.str t) => t == s
  | .strNode _, _ => false
  | .floatNode q, .leaf (.float p) => decide (p = q)
  | .floatNode _, _ => false
  | .abstractIntNode mn mx, .leaf (.int m) => intInBounds mn mx m
  | .abstractIntNode mn mx, .leaf (.bool b) => intInBounds mn mx (bint b)
  | .abstractIntNode _ _, _ => false
  | .abstractBoolNode, .leaf (.bool _) => true
  | .abstractBoolNode, _ => false
  | .abstractStrNode, .leaf (.str _) => true
  | .abstractStrNode, _ => false
  | .abstractFloatNode mn mx, .leaf (.float p) => ratInBounds mn mx p
  | .abstractFloatNode _ _, _ => false
  | .abstractAnyNode, _ => true
  | .dictNode schema, .dict es =>
      decide (es.length = schema.length) && testDictSchema schema es
  | .dictNode _, _ => false
  | .listNode schema, .list xs =>
      decide (xs.length = schema.length) && testListZip schema xs
  | .listNode _, _ => false
  | .abstractDictNode ks vs, .dict es =>
      (PyEntries.toList es).all (fun kv => test ks (.leaf kv.1) && test vs kv.2)
  | .abstractDictNode _ _, _ => false
  | .abstractListNode item, .list xs => (PyList.toList xs).all (fun x => test item x)
  | .abstractListNode _, _ => false
  | .unionNode ss, v => testAnySchema ss v
/-- The key loop of `DictNode.test`: for each schema entry, the key must be
present in the pytree dict and the looked-up value must pass the child. -/
def testDictSchema : DictSchema → PyEntries → Bool
  | .nil, _ => true
  | .cons k child tl, es =>
      match es.lookup k with
      | none => false
      | some v => test child v && testDictSchema tl es
/-- The `zip` loop of `ListNode.test` (zip stops at the shorter side; the
caller has already compared the lengths). -/
def testListZip : ListSchema → PyList → Bool
  | .nil, _ => true
  | .cons _ _, .nil => true
  | .cons s tl, .cons x xs => test s x && testListZip tl xs
/-- `any(schema.test(pytree) for schema in self.schemas)` of `UnionNode.test`. -/
def testAnySchema : ListSchema → PyTree → Bool
  | .nil, _ => false
  | .cons s tl, v => test s v || testAnySchema tl v
end

/-- One bound position of `AbstractIntNode.intersect_like`: both sides set
the bound and the values differ. -/
def intConflict : Option ℤ → Option ℤ → Bool
  | some a, some b => decide (a ≠ b)
  | _, _ => false

/-- One bound position of `AbstractFloatNode.intersect_like`. -/
def ratConflict : Option ℚ → Option ℚ → Bool
  | some a, some b => decide (a ≠ b)
  | _, _ => false

/-- `self.min_value if self.min_value is not None else other.min_value`. -/
def pickFirst {α : Type} : Option α → Option α → Option α
  | some a, _ => some a
  | none, b => b

mutual
/-- `intersect` of irnodes.py, dispatched on the receiver's class exactly as
the Python method resolution does:

* `LiteralNode.intersect`: if the operand is `AbstractAnyNode` or an
  instance of the abstract node class registered for `self.pytype`
  (`IRSchemaNode.from_type(self.pytype)`), return `self` unchanged; if it is
  a literal of the same class, require equal values; otherwise raise
  `IRNodeError`.
* `AbstractLiteralNode.intersect`: absorb `AbstractAnyNode`, delegate to
  `intersect_like` for the same class (a concrete `LiteralNode` operand is
  never the same class and therefore raises), otherwise raise.
* `AbstractAnyNode.intersect`: return the operand unless it is also
  `AbstractAnyNode`.
* `BranchNode.intersect`: absorb `AbstractAnyNode`, `intersect_like` for
  the same class, return `self` for an `AbstractBranchNode` over the same
  `pytype`, otherwise raise.
* `AbstractBranchNode.intersect`: absorb `AbstractAnyNode`,
  `intersect_like` for the same class, return the operand for a
  `BranchNode` over the same `pytype`, otherwise raise.
* `UnionNode.intersect_like` reads `self.schema`, but the attribute set by
  `__init__` is named `schemas`; the list comprehension therefore raises
  `AttributeError` before pairing anything. -/
def intersect : IRNode → IRNode → Except PyError IRNode
  | .intNode n, other =>
      match other with
      | .abstractAnyNode => .ok (.intNode n)
      | .abstractIntNode _ _ => .ok (.intNode n)
      | .intNode m => if m = n then .ok (.intNode n) else .error .irNodeError
      | _ => .error .irNodeError
  | .boolNode b, other =>
      match other with
      | .abstractAnyNode => .ok (.boolNode b)
      | .abstractBoolNode => .ok (.boolNode b)
      | .boolNode c => if c = b then .ok (.boolNode b) else .error .irNodeError
      | _ => .error .irNodeError
  | .strNode s, other =>
      match other with
      | .abstractAnyNode => .ok (.strNode s)
      | .abstractStrNode => .ok (.strNode s)
      | .strNode t => if t = s then .ok (.strNode s) else .error .irNodeError
      | _ => .error .irNodeError
  | .floatNode q, other =>
      match other with
      | .abstractAnyNode => .ok (.floatNode q)
      | .abstractFloatNode _ _ => .ok (.floatNode q)
      | .floatNode p => if p = q then .ok (.floatNode q) else .error .irNodeError
      | _ => .error .irNodeError
  | .abstractIntNode a1 a2, other =>
      match other with
      | .abstractAnyNode => .ok (.abstractIntNode a1 a2)
      | .abstractIntNode b1 b2 =>
          if intConflict a1 b1 then .error .irNodeError
          else if intConflict a2 b2 then .error .irNodeError
          else .ok (.abstractIntNode (pickFirst a1 b1) (pickFirst a2 b2))
      | _ => .error .irNodeError
  | .abstractBoolNode, other =>
      match other with
      | .abstractAnyNode => .ok .abstractBoolNode
      | .abstractBoolNode => .ok .abstractBoolNode
      | _ => .error .irNodeError
  | .abstractStrNode, other =>
      match other with
      | .abstractAnyNode => .ok .abstractStrNode
      | .abstractStrNode => .ok .abstractStrNode
      | _ => .error .irNodeError
  | .abstractFloatNode a1 a2, other =>
      match other with
      | .abstractAnyNode => .ok (.abstractFloatNode a1 a2)
      | .abstractFloatNode b1 b2 =>
          if ratConflict a1 b1 then .error .irNodeError
          else if ratConflict a2 b2 then .error .irNodeError
          else .ok (.abstractFloatNode (pickFirst a1 b1) (pickFirst a2 b2))
      | _ => .error .irNodeError
  | .abstractAnyNode, other =>
      match other with
      | .abstractAnyNode => .ok .abstractAnyNode
      | o => .ok o
  | .dictNode s, other =>
      match other with
      | .abstractAnyNode => .ok (.dictNode s)
      | .dictNode o =>
          if s.keys = o.keys then Except.map IRNode.dictNode (intersectDictSchema s o)
          else .error .irNodeError
      | .abstractDictNode _ _ => .ok (.dictNode s)
      | _ => .error .irNodeError
  | .listNode s, other =>
      match other with
      | .abstractAnyNode => .ok (.listNode s)
      | .listNode o =>
          if s.length = o.length then Except.map IRNode.listNode (intersectListSchema s o)
          else .error .irNodeError
      | .abstractListNode _ => .ok (.listNode s)
      | _ => .error .irNodeError
  | .abstractDictNode k v, other =>
      match other with
      | .abstractAnyNode => .ok (.abstractDictNode k v)
      | .abstractDictNode k2 v2 => do
          let ks ← intersect k k2
          let vs ← intersect v v2
          .ok (.abstractDictNode ks vs)
      | .dictNode s => .ok (.dictNode s)
      | _ => .error .irNodeError
  | .abstractListNode item, other =>
      match other with
      | .abstractAnyNode => .ok (.abstractListNode item)
      | .abstractListNode item2 => do
          let r ← intersect item item2
          .ok (.abstractListNode r)
      | .listNode s => .ok (.listNode s)
      | _ => .error .irNodeError
  | .unionNode ss, other =>
      match other with
      | .abstractAnyNode => .ok (.unionNode ss)
      | .unionNode _ => .error .attributeError
      | _ => .error .irNodeError
/-- The per-key loop of `DictNode.intersect_like`: each entry of the
receiver's schema is merged with `other.schema[key]` (which would raise
`KeyError` on a missing key; the caller has already required equal key
lists). -/
def intersectDictSchema : DictSchema → DictSchema → Except PyError DictSchema
  | .nil, _ => .ok .nil
  | .cons k v tl, o =>
      match o.lookup k with
      | none => .error .keyError
      | some w => do
          let r ← intersect v w
          let rs ← intersectDictSchema tl o
          .ok (.cons k r rs)
/-- The `zip` loop of `ListNode.intersect_like` (zip stops at the shorter
side; the caller has already compared the lengths). -/
def intersectListSchema : ListSchema → ListSchema → Except PyError ListSchema
  | .nil, _ => .ok .nil
  | .cons _ _, .nil => .ok .nil
  | .cons s tl, .cons t tl2 => do
      let r ← intersect s t
      let rs ← intersectListSchema tl tl2
      .ok (.cons r rs)
end

/-- `LiteralNode(value)`: `LiteralNode.__new__` dispatches on the runtime
type of `value` through `IRSchemaNode.from_type` and builds the registered
literal subclass (`bool` is looked up before its supertype `int` because the
registry is keyed by the exact `type(value)`). -/
def LiteralNode : Leaf → IRNode
  | .int n => .intNode n
  | .bool b => .boolNode b
  | .str s => .strNode s
  | .float q => .floatNode q

mutual
/-- `pytree_to_schema` of irnodes.py: a leaf becomes the `LiteralNode`
subclass registered for its runtime type (`IRSchemaNode.from_type`), a list
becomes a `ListNode` of its items' schemas, a dict a `DictNode` mapping
`LiteralNode(key)` to the value's schema (insertion order preserved). -/
def pytree_to_schema : PyTree → IRNode
  | .leaf l => LiteralNode l
  | .list xs => .listNode (pytreeListSchemas xs)
  | .dict es => .dictNode (pytreeDictSchemas es)
/-- The list comprehension of the `list` case of `pytree_to_schema`. -/
def pytreeListSchemas : PyList → ListSchema
  | .nil => .nil
  | .cons x tl => .cons (pytree_to_schema x) (pytreeListSchemas tl)
/-- The dict comprehension of the `dict` case of `pytree_to_schema`. -/
def pytreeDictSchemas : PyEntries → DictSchema
  | .nil => .nil
  | .cons k v tl => .cons k (pytree_to_schema v) (pytreeDictSchemas tl)
end

/-- No stored key of `es` is Python-equal to `k`: looking `k` up in `es`
misses. -/
def keyAbsent : PyEntries → Leaf → Bool
  | .nil, _ => true
  | .cons k2 _ tl, k => !(leafPyEq k k2) && keyAbsent tl k

/-- The keys of a pytree dict are pairwise not Python-equal — the invariant
every value that exists as an actual Python dict satisfies (Python dicts
cannot hold two `==`-equal keys). -/
def keysDistinct : PyEntries → Bool
  | .nil => true
  | .cons k _ tl => keyAbsent tl k && keysDistinct tl

mutual
/-- A pytree value representable as an actual Python object: every dict in
it has pairwise non-`==` keys. -/
def wf : PyTree → Bool
  | .leaf _ => true
  | .list xs => wfList xs
  | .dict es => keysDistinct es && wfEntries es
/-- `wf` on every element of a list. -/
def wfList : PyList → Bool
  | .nil => true
  | .cons x tl => wf x && wfList tl
/-- `wf` on every value of a dict. -/
def wfEntries : PyEntries → Bool
  | .nil => true
  | .cons _ v tl => wf v && wfEntries tl
end

end Irnodes

namespace Irnodes

/-- Keys of the two class-level registries of `IRSchemaNode`: the Python
types and `AbstractType` markers under which node classes register
themselves (plus arbitrary further types, as the test suite registers mock
types). -/
inductive PyTypeKey where
  | int
  | bool
  | str
  | float
  | dict
  | list
  | any
  | union
  | custom (name : String)
deriving DecidableEq

/-- Python dict assignment `d[key] = value`: replace the value in place if
the key is bound, else append a new entry. -/
def dictAssign : List (PyTypeKey × String) → PyTypeKey → String → List (PyTypeKey × String)
  | [], k, v => [(k, v)]
  | (k2, v2) :: tl, k, v =>
      if k2 = k then (k2, v) :: tl else (k2, v2) :: dictAssign tl k v

/-- Python dict lookup `d.get(key)` on a registry. -/
def regLookup : List (PyTypeKey × String) → PyTypeKey → Option String
  | [], _ => none
  | (k2, v) :: tl, k => if k2 = k then some v else regLookup tl k

/-- The two class-level registries of `IRSchemaNode`, mapping a registry key
to the registered node class (identified by its class name). -/
structure Registries where
  node_registry : List (PyTypeKey × String)
  abstract_node_registry : List (PyTypeKey × String)
deriving DecidableEq

/-- The `pytype` keyword argument a subclass definition passes to
`IRSchemaNode.__init_subclass__`. -/
inductive PytypeArg where
  /-- `pytype=None` (no registration requested). -/
  | noneArg
  /-- `isinstance(pytype, type)`: a concrete value type. -/
  | typeArg (t : PyTypeKey)
  /-- `isinstance(pytype, AbstractType)`: an abstract marker wrapping `t`. -/
  | abstractArg (t : PyTypeKey)
  /-- Any other object. -/
  | otherArg

/-- `IRSchemaNode.__init_subclass__`: register the class `cls` under the
given `pytype` in the matching registry with a plain dict assignment, or
raise `IRNodeError` for an unsupported `pytype`. -/
def init_subclass (regs : Registries) (pytype : PytypeArg) (cls : String) :
    Except PyError Registries :=
  match pytype with
  | .noneArg => .ok regs
  | .typeArg t =>
      .ok { regs with node_registry := dictAssign regs.node_registry t cls }
  | .abstractArg t =>
      .ok { regs with abstract_node_registry := dictAssign regs.abstract_node_registry t cls }
  | .otherArg => .error .irNodeError

end Irnodes

namespace NodesIR

mutual
/-- The `SchemaNode` hierarchy of `src/IR/nodes.py`, one constructor per
concrete class. The `Literal` subclasses (`IntNode`, `StringNode`,
`BoolNode`, `FloatNode`) hold an optional bound value; `DictNode` holds
keyed children, `ListNode` and `AnyOfNode` hold a list of children. Python
floats are modelled by `ℚ` as in the irnodes embedding. -/
inductive SNode where
  | intNode (value : Option ℤ)
  | stringNode (value : Option String)
  | boolNode (value : Option Bool)
  | floatNode (value : Option ℚ)
  | dictNode (children : SChildren)
  | listNode (children : SList)
  | anyOfNode (children : SList)
/-- The `children` dict of a `DictNode` in insertion order. Source keys may
be strings or `Literal` nodes; `walk` and the transforms never read the
keys, only `children.values()`, so keys are carried as strings. -/
inductive SChildren where
  | nil
  | cons (key : String) (val : SNode) (tl : SChildren)
/-- The `children` list of a `ListNode` or `AnyOfNode`. -/
inductive SList where
  | nil
  | cons (hd : SNode) (tl : SList)
end

/-- Elements of an `SList` as a Lean list. -/
def SList.toList : SList → List SNode
  | .nil => []
  | .cons x tl => x :: tl.toList

/-- An `SList` built back from a Lean list (`list(tree_case)`). -/
def SList.ofList : List SNode → SList
  | [] => .nil
  | x :: tl => .cons x (SList.ofList tl)

/-- The node is a `Literal` subclass instance. -/
def isLiteral : SNode → Bool
  | .intNode _ => true
  | .stringNode _ => true
  | .boolNode _ => true
  | .floatNode _ => true
  | _ => false

mutual
/-- `walk` of `src/IR/nodes.py`. A `Literal` yields the single pair
`([], self)`. `DictNode.walk`, `ListNode.walk` and `AnyOfNode.walk` iterate
their children in order and re-yield each pair produced by the child's walk
with `self` prepended to the path — the branch node itself is never yielded
as the node component. The generator is modelled by the (finite) list of
pairs it yields. -/
def walk : SNode → List (List SNode × SNode)
  | .intNode v => [([], .intNode v)]
  | .stringNode v => [([], .stringNode v)]
  | .boolNode v => [([], .boolNode v)]
  | .floatNode v => [([], .floatNode v)]
  | .dictNode cs => (walkChildren cs).map (fun pn => (SNode.dictNode cs :: pn.1, pn.2))
  | .listNode cs => (walkList cs).map (fun pn => (SNode.listNode cs :: pn.1, pn.2))
  | .anyOfNode cs => (walkList cs).map (fun pn => (SNode.anyOfNode cs :: pn.1, pn.2))
/-- Concatenation of the child walks over `self.children.values()`. -/
def walkChildren : SChildren → List (List SNode × SNode)
  | .nil => []
  | .cons _ c tl => walk c ++ walkChildren tl
/-- Concatenation of the child walks over a list of children. -/
def walkList : SList → List (List SNode × SNode)
  | .nil => []
  | .cons c tl => walk c ++ walkList tl
end

mutual
/-- The `Literal` leaves of a tree in depth-first order (the nodes `walk`
yields). -/
def literalLeaves : SNode → List SNode
  | .intNode v => [.intNode v]
  | .stringNode v => [.stringNode v]
  | .boolNode v => [.boolNode v]
  | .floatNode v => [.floatNode v]
  | .dictNode cs => literalLeavesChildren cs
  | .listNode cs => literalLeavesList cs
  | .anyOfNode cs => literalLeavesList cs
/-- `literalLeaves` concatenated over dict children. -/
def literalLeavesChildren : SChildren → List SNode
  | .nil => []
  | .cons _ c tl => literalLeaves c ++ literalLeavesChildren tl
/-- `literalLeaves` concatenated over list children. -/
def literalLeavesList : SList → List SNode
  | .nil => []
  | .cons c tl => literalLeaves c ++ literalLeavesList tl
end

/-- `itertools.product` over the children's per-child result lists, in
itertools order (rightmost factor varies fastest). -/
def cartesianProduct : List (List SNode) → List (List SNode)
  | [] => [[]]
  | g :: gs => g.flatMap (fun x => (cartesianProduct gs).map (fun tc => x :: tc))

/-- `dict(zip(self.children.keys(), tree_case))`: the original keys paired
with one combination of transformed children (zip stops at the shorter
side). -/
def zipChildren : SChildren → List SNode → SChildren
  | .nil, _ => .nil
  | .cons _ _ _, [] => .nil
  | .cons k _ tl, v :: vs => .cons k v (zipChildren tl vs)

/-- Result of the recursive call `child.transform(**directives)` made by the
default transforms of `DictNode`, `ListNode` and `AnyOfNode`:
`SchemaNode.transform(self, transform_name, data)` declares two required
positional parameters, and the recursive call forwards only keyword
directives, so Python raises `TypeError` for the missing arguments before
any child generator is constructed. -/
def childTransformCall (_child : SNode) : Except PyError (List SNode) :=
  .error .typeError

/-- The list comprehension
`[child.transform(**directives) for child in self.children.values()]`. -/
def transformChildren : SChildren → Except PyError (List (List SNode))
  | .nil => .ok []
  | .cons _ c tl => do
      let g ← childTransformCall c
      let gs ← transformChildren tl
      .ok (g :: gs)

/-- The same comprehension over a `ListNode`'s or `AnyOfNode`'s children. -/
def transformSList : SList → Except PyError (List (List SNode))
  | .nil => .ok []
  | .cons c tl => do
      let g ← childTransformCall c
      let gs ← transformSList tl
      .ok (g :: gs)

/-- `default_transform` of `src/IR/nodes.py` as a method call with empty
directives (the way the repository's own tests invoke it). A `Literal`
yields itself. The branch nodes build the per-child transform generators and
then yield one rebuilt node per element of the `itertools.product` of those
generators — but constructing the per-child generators already raises
`TypeError` whenever there is at least one child, because
`child.transform(**directives)` omits the required positional arguments of
`SchemaNode.transform`. -/
def default_transform : SNode → Except PyError (List SNode)
  | .intNode v => .ok [.intNode v]
  | .stringNode v => .ok [.stringNode v]
  | .boolNode v => .ok [.boolNode v]
  | .floatNode v => .ok [.floatNode v]
  | .dictNode cs => do
      let gens ← transformChildren cs
      .ok ((cartesianProduct gens).map (fun tc => SNode.dictNode (zipChildren cs tc)))
  | .listNode cs => do
      let gens ← transformSList cs
      .ok ((cartesianProduct gens).map (fun tc => SNode.listNode (SList.ofList tc)))
  | .anyOfNode cs => do
      let gens ← transformSList cs
      .ok ((cartesianProduct gens).map (fun tc => SNode.anyOfNode (SList.ofList tc)))

/-- `AnyOfNode.separate_transform` (registered as `SplitTreesOnOptions`):
yield each child of the union as its own independent top-level tree. -/
def separate_transform (children : SList) : List SNode :=
  children.toList

/-- A transform operand as stored in a `_transform_registry` (or the
`default_transform` fallback): every operand in the source has the Python
signature `(self, **directives)`, i.e. one positional parameter, and `run`
is what its body would yield when invoked with empty directives. -/
structure Operand where
  positionalParams : Nat
  run : Except PyError (List SNode)

/-- `self._transform_registry.get(transform_name, self.default_transform)`:
the `Literal` subclasses register `convert_to_unbound_schema` and
`visualize_types`, `AnyOfNode` registers `SplitTreesOnOptions`, and every
other name falls back to `default_transform`. -/
def registeredOperand : SNode → String → Operand
  | .intNode _, "convert_to_unbound_schema" => ⟨1, .ok [.intNode none]⟩
  | .intNode _, "visualize_types" => ⟨1, .ok [.stringNode (some "int")]⟩
  | .stringNode _, "convert_to_unbound_schema" => ⟨1, .ok [.stringNode none]⟩
  | .stringNode _, "visualize_types" => ⟨1, .ok [.stringNode (some "string")]⟩
  | .boolNode _, "convert_to_unbound_schema" => ⟨1, .ok [.boolNode none]⟩
  | .boolNode _, "visualize_types" => ⟨1, .ok [.stringNode (some "bool")]⟩
  | .floatNode _, "convert_to_unbound_schema" => ⟨1, .ok [.floatNode none]⟩
  | .floatNode _, "visualize_types" => ⟨1, .ok [.stringNode (some "float")]⟩
  | .anyOfNode cs, "SplitTreesOnOptions" => ⟨1, .ok (separate_transform cs)⟩
  | t, _ => ⟨1, default_transform t⟩

/-- `SchemaNode.transform`: fetch the operand and execute
`yield from operand(self, data)`. The call passes two positional arguments
(`self` and `data`) to an operand whose signature has a single positional
parameter (and only keyword directives besides), so argument binding raises
`TypeError` for every node and every transform name; registering bound
methods (the `default_transform` fallback and `separate_transform`) only
widens the mismatch by one further implicit argument. -/
def transform (t : SNode) (name : String) : Except PyError (List SNode) :=
  let operand := registeredOperand t name
  let positionalArgsPassed := 2
  if positionalArgsPassed = operand.positionalParams then operand.run
  else .error .typeError

end NodesIR

namespace Irnodes

/-- No key of the schema equals the `LiteralNode` key `k` (the Python-dict
invariant on a `DictNode`'s schema, whose keys are distinct `LiteralNode`
instances). -/
def dkeyAbsent : DictSchema → Leaf → Bool
  | .nil, _ => true
  | .cons k2 _ tl, k => !(decide (k2 = k)) && dkeyAbsent tl k

/-- The `LiteralNode` keys of a `DictNode` schema are pairwise distinct —
the invariant every schema built as an actual Python dict satisfies. -/
def dkeysDistinct : DictSchema → Bool
  | .nil => true
  | .cons k _ tl => dkeyAbsent tl k && dkeysDistinct tl

/-- Comparison target for the amended dictionary-intersection claim, written
from the amended specification's words: with identical ordered key lists,
the merge pairs the two schemas positionally, keeps each key, and intersects
the two child schemas of every position recursively. -/
def zipMergeDictSchemas : DictSchema → DictSchema → Except PyError DictSchema
  | .nil, _ => .ok .nil
  | .cons _ _ _, .nil => .ok .nil
  | .cons k v tl, .cons _ w tl2 => do
      let r ← intersect v w
      let rs ← zipMergeDictSchemas tl tl2
      .ok (.cons k r rs)

/-- Every entry of `es2` is found unchanged when looked up in `es`
(proof-support predicate for the derivation round trip). -/
def entriesLookupAgree : PyEntries → PyEntries → Prop
  | .nil, _ => True
  | .cons k v tl, es => PyEntries.lookup es k = some v ∧ entriesLookupAgree tl es

end Irnodes

open Irnodes NodesIR

/-- Looking up a key right after a Python dict assignment yields the newly
assigned value. -/
theorem regLookup_dictAssign (d : List (PyTypeKey × String)) (k : PyTypeKey) (v : String) :
    regLookup (dictAssign d k v) k = some v := by
  induction d with
  | nil => simp [dictAssign, regLookup]
  | cons hd tl ih =>
      obtain ⟨k2, v2⟩ := hd
      by_cases h : k2 = k
      · simp [dictAssign, regLookup, h]
      · simp [dictAssign, regLookup, h, ih]

/-- C1, counterexample. Intersecting `IntNode(20)` with
`AbstractIntNode(max_value=10)` returns the literal unchanged instead of
raising, although 20 fails the abstract node's own `test`; and in the other
direction `AbstractIntNode(max_value=10).intersect(IntNode(5))` raises
`IRNodeError` although 5 passes the abstract node's `test`. Both directions
contradict the claim. -/
theorem c1_literal_abstract_counterexample :
    intersect (.intNode 20) (.abstractIntNode none (some 10)) = .ok (.intNode 20)
    ∧ test (.abstractIntNode none (some 10)) (.leaf (.int 20)) = false
    ∧ intersect (.abstractIntNode none (some 10)) (.intNode 5) = .error .irNodeError
    ∧ test (.abstractIntNode none (some 10)) (.leaf (.int 5)) = true :=
  ⟨rfl, rfl, rfl, rfl⟩

/-- C1, amended. For every `LiteralNode` `L` and the `AbstractLiteralNode`
of the corresponding kind `A`: `L.intersect(A)` returns the literal `L`
unchanged, regardless of whether `L`'s bound value passes `A`'s own `test`
(no bound is ever checked); and `A.intersect(L)` always raises
`IRNodeError` (the specification's `ConflictingConstraint`), because a
literal is never an instance of the abstract node's class. -/
theorem c1_literal_abstract_intersect :
    (∀ (n : ℤ) (mn mx : Option ℤ),
      intersect (.intNode n) (.abstractIntNode mn mx) = .ok (.intNode n)
      ∧ intersect (.abstractIntNode mn mx) (.intNode n) = .error .irNodeError)
    ∧ (∀ b : Bool,
      intersect (.boolNode b) .abstractBoolNode = .ok (.boolNode b)
      ∧ intersect .abstractBoolNode (.boolNode b) = .error .irNodeError)
    ∧ (∀ s : String,
      intersect (.strNode s) .abstractStrNode = .ok (.strNode s)
      ∧ intersect .abstractStrNode (.strNode s) = .error .irNodeError)
    ∧ (∀ (q : ℚ) (mn mx : Option ℚ),
      intersect (.floatNode q) (.abstractFloatNode mn mx) = .ok (.floatNode q)
      ∧ intersect (.abstractFloatNode mn mx) (.floatNode q) = .error .irNodeError) :=
  ⟨fun _ _ _ => ⟨rfl, rfl⟩, fun _ => ⟨rfl, rfl⟩, fun _ => ⟨rfl, rfl⟩,
    fun _ _ _ => ⟨rfl, rfl⟩⟩

/-- C4. Intersecting any two `UnionNode`s raises `AttributeError` — the
list comprehension in `UnionNode.intersect_like` reads `self.schema`, but
the attribute stored by `__init__` is `self.schemas` — so no positional
pairing of alternatives (and no equal-length check) ever happens. -/
theorem c4_union_intersect_attribute_error (ss ts : ListSchema) :
    intersect (.unionNode ss) (.unionNode ts) = .error .attributeError := rfl

/-- C4, witness-style evaluation at the concrete failing input
`UnionNode([AbstractIntNode()]).intersect(UnionNode([AbstractStrNode()]))`. -/
theorem c4_union_intersect_attribute_error_witness :
    intersect (.unionNode (.cons (.abstractIntNode none none) .nil))
      (.unionNode (.cons .abstractStrNode .nil)) = .error .attributeError :=
  c4_union_intersect_attribute_error (.cons (.abstractIntNode none none) .nil)
    (.cons .abstractStrNode .nil)

/-- C8. Evaluating the transform engine at the claim's inputs: the default
transform of a two-child `DictNode` raises `TypeError` (the recursive call
`child.transform(**directives)` omits the two required positional arguments
of `SchemaNode.transform`) instead of producing any combined trees, and
likewise every call through `SchemaNode.transform` — including the
registered splitting transform — raises `TypeError` because
`operand(self, data)` passes two positional arguments to operands declaring
one. Only `AnyOfNode.separate_transform` invoked directly (as the
repository's tests do) yields the two alternatives as independent trees. -/
theorem c8_transform_engine_eval :
    default_transform
      (.dictNode (.cons "a" (.intNode (some 1)) (.cons "b" (.stringNode (some "x")) .nil)))
      = .error .typeError
    ∧ transform
      (.dictNode (.cons "a" (.intNode (some 1)) (.cons "b" (.stringNode (some "x")) .nil)))
      "concretize" = .error .typeError
    ∧ separate_transform (.cons (.intNode (some 42)) (.cons (.stringNode (some "hello")) .nil))
      = [.intNode (some 42), .stringNode (some "hello")]
    ∧ (separate_transform
        (.cons (.intNode (some 42)) (.cons (.stringNode (some "hello")) .nil))).length = 2
    ∧ transform (.anyOfNode (.cons (.intNode (some 42)) (.cons (.stringNode (some "hello")) .nil)))
      "SplitTreesOnOptions" = .error .typeError :=
  ⟨rfl, rfl, rfl, rfl, rfl⟩

/-- C9, counterexample. Registering a second class under the already-bound
key `int` succeeds silently and overwrites the existing binding — the claim
says such a registration fails with an error and never overwrites. -/
theorem c9_registry_overwrite_counterexample :
    init_subclass ⟨[(.int, "IntNode")], []⟩ (.typeArg .int) "ShadowIntNode"
      = .ok ⟨[(.int, "ShadowIntNode")], []⟩
    ∧ regLookup (dictAssign [(.int, "IntNode")] .int "ShadowIntNode") .int
      = some "ShadowIntNode" :=
  ⟨rfl, rfl⟩

/-- C9, amended. `IRSchemaNode.__init_subclass__` never fails for a type or
`AbstractType` key, whether or not the key is already bound: the plain dict
assignment silently replaces any existing binding, so the registry maps each
key to exactly one constructor — the most recently registered one. -/
theorem c9_registry_last_wins (regs : Registries) (t : PyTypeKey) (cls : String) :
    init_subclass regs (.typeArg t) cls
      = .ok { regs with node_registry := dictAssign regs.node_registry t cls }
    ∧ regLookup (dictAssign regs.node_registry t cls) t = some cls
    ∧ init_subclass regs (.abstractArg t) cls
      = .ok { regs with abstract_node_registry := dictAssign regs.abstract_node_registry t cls }
    ∧ regLookup (dictAssign regs.abstract_node_registry t cls) t = some cls :=
  ⟨rfl, regLookup_dictAssign regs.node_registry t cls, rfl,
    regLookup_dictAssign regs.abstract_node_registry t cls⟩

/-- C10. For every abstract branch node and every concrete branch node over
the same container type, both intersection directions return the concrete
node itself, whatever the children on either side are — so no recursion
into, and no testing of, the concrete node's children ever happens — and,
as the concluding conjuncts exhibit, the returned tree can accept a value
that the abstract operand rejects. -/
theorem c10_branch_abstract_intersect :
    (∀ (k v : IRNode) (s : DictSchema),
      intersect (.abstractDictNode k v) (.dictNode s) = .ok (.dictNode s)
      ∧ intersect (.dictNode s) (.abstractDictNode k v) = .ok (.dictNode s))
    ∧ (∀ (item : IRNode) (s : ListSchema),
      intersect (.abstractListNode item) (.listNode s) = .ok (.listNode s)
      ∧ intersect (.listNode s) (.abstractListNode item) = .ok (.listNode s))
    ∧ intersect (.abstractDictNode .abstractStrNode (.abstractIntNode none none))
        (.dictNode (.cons (.str "a") (.strNode "x") .nil))
      = .ok (.dictNode (.cons (.str "a") (.strNode "x") .nil))
    ∧ test (.dictNode (.cons (.str "a") (.strNode "x") .nil))
        (.dict (.cons (.str "a") (.leaf (.str "x")) .nil)) = true
    ∧ test (.abstractDictNode .abstractStrNode (.abstractIntNode none none))
        (.dict (.cons (.str "a") (.leaf (.str "x")) .nil)) = false :=
  ⟨fun _ _ _ => ⟨rfl, rfl⟩, fun _ _ => ⟨rfl, rfl⟩, rfl, rfl, rfl⟩

/-- Characterization of the int-bound conflict test used by
`AbstractIntNode.intersect_like`. -/
theorem intConflict_iff (a b : Option ℤ) :
    intConflict a b = true ↔ ∃ x y, a = some x ∧ b = some y ∧ x ≠ y := by
  cases a <;> cases b <;> simp [intConflict]

/-- Characterization of the float-bound conflict test used by
`AbstractFloatNode.intersect_like`. -/
theorem ratConflict_iff (a b : Option ℚ) :
    ratConflict a b = true ↔ ∃ x y, a = some x ∧ b = some y ∧ x ≠ y := by
  cases a <;> cases b <;> simp [ratConflict]

/-- C2. `AbstractIntNode` and `AbstractFloatNode` intersection treats the
two bounds independently: the merge raises `IRNodeError` (the
specification's `ConflictingConstraint`) exactly when some bound position is
specified by both operands with differing values; otherwise it succeeds and
each bound of the result is the receiver's bound when set, else the
operand's. The two closing conjuncts are the specification's concrete
examples. -/
theorem c2_abstract_bounds_intersect :
    (∀ a1 a2 b1 b2 : Option ℤ,
      (intersect (.abstractIntNode a1 a2) (.abstractIntNode b1 b2) = .error .irNodeError ↔
        (∃ x y, a1 = some x ∧ b1 = some y ∧ x ≠ y) ∨ (∃ x y, a2 = some x ∧ b2 = some y ∧ x ≠ y))
      ∧ ((intConflict a1 b1 || intConflict a2 b2) = false →
        intersect (.abstractIntNode a1 a2) (.abstractIntNode b1 b2)
          = .ok (.abstractIntNode (pickFirst a1 b1) (pickFirst a2 b2))))
    ∧ (∀ a1 a2 b1 b2 : Option ℚ,
      (intersect (.abstractFloatNode a1 a2) (.abstractFloatNode b1 b2) = .error .irNodeError ↔
        (∃ x y, a1 = some x ∧ b1 = some y ∧ x ≠ y) ∨ (∃ x y, a2 = some x ∧ b2 = some y ∧ x ≠ y))
      ∧ ((ratConflict a1 b1 || ratConflict a2 b2) = false →
        intersect (.abstractFloatNode a1 a2) (.abstractFloatNode b1 b2)
          = .ok (.abstractFloatNode (pickFirst a1 b1) (pickFirst a2 b2))))
    ∧ intersect (.abstractIntNode none (some 10)) (.abstractIntNode (some 0) none)
        = .ok (.abstractIntNode (some 0) (some 10))
    ∧ intersect (.abstractIntNode (some 0) (some 10)) (.abstractIntNode (some 5) (some 15))
        = .error .irNodeError := by
  refine ⟨fun a1 a2 b1 b2 => ⟨⟨?_, ?_⟩, ?_⟩, fun a1 a2 b1 b2 => ⟨⟨?_, ?_⟩, ?_⟩, rfl, rfl⟩
  · intro he
    by_cases h1 : intConflict a1 b1 = true
    · exact Or.inl ((intConflict_iff a1 b1).mp h1)
    · by_cases h2 : intConflict a2 b2 = true
      · exact Or.inr ((intConflict_iff a2 b2).mp h2)
      · rw [show intersect (.abstractIntNode a1 a2) (.abstractIntNode b1 b2)
              = .ok (.abstractIntNode (pickFirst a1 b1) (pickFirst a2 b2)) by
            simp [intersect, h1, h2]] at he
        exact absurd he (by simp)
  · intro hd
    rcases hd with h | h
    · simp [intersect, (intConflict_iff a1 b1).mpr h]
    · by_cases h1 : intConflict a1 b1 = true <;>
        simp [intersect, h1, (intConflict_iff a2 b2).mpr h]
  · intro h
    rw [Bool.or_eq_false_iff] at h
    simp [intersect, h.1, h.2]
  · intro he
    by_cases h1 : ratConflict a1 b1 = true
    · exact Or.inl ((ratConflict_iff a1 b1).mp h1)
    · by_cases h2 : ratConflict a2 b2 = true
      · exact Or.inr ((ratConflict_iff a2 b2).mp h2)
      · rw [show intersect (.abstractFloatNode a1 a2) (.abstractFloatNode b1 b2)
              = .ok (.abstractFloatNode (pickFirst a1 b1) (pickFirst a2 b2)) by
            simp [intersect, h1, h2]] at he
        exact absurd he (by simp)
  · intro hd
    rcases hd with h | h
    · simp [intersect, (ratConflict_iff a1 b1).mpr h]
    · by_cases h1 : ratConflict a1 b1 = true <;>
        simp [intersect, h1, (ratConflict_iff a2 b2).mpr h]
  · intro h
    rw [Bool.or_eq_false_iff] at h
    simp [intersect, h.1, h.2]

/-- Witness for C2: the independent-bound merge applied at concrete operands
with no conflicting bound position. -/
theorem c2_abstract_bounds_intersect_witness :
    (intConflict (some (0 : ℤ)) none || intConflict none (some (7 : ℤ))) = false
    ∧ intersect (.abstractIntNode (some 0) none) (.abstractIntNode none (some 7))
      = .ok (.abstractIntNode (pickFirst (some 0) none) (pickFirst none (some 7))) :=
  ⟨rfl, (c2_abstract_bounds_intersect.1 (some 0) none none (some 7)).2 rfl⟩

/-- C3, counterexample. Two `DictNode`s whose key sets are equal when
compared order-independently (the key lists are permutations of each other)
but listed in different orders fail to intersect: `DictNode.intersect_like`
compares `list(self.schema.keys())` with `list(other.schema.keys())`, which
is order-sensitive, so it raises `IRNodeError` where the claim requires a
successful merge. -/
theorem c3_dict_key_order_counterexample :
    (DictSchema.keys (.cons (.str "a") .abstractStrNode (.cons (.str "b") .abstractBoolNode .nil))).Perm
      (DictSchema.keys (.cons (.str "b") .abstractBoolNode (.cons (.str "a") .abstractStrNode .nil)))
    ∧ intersect
        (.dictNode (.cons (.str "a") .abstractStrNode (.cons (.str "b") .abstractBoolNode .nil)))
        (.dictNode (.cons (.str "b") .abstractBoolNode (.cons (.str "a") .abstractStrNode .nil)))
      = .error .irNodeError :=
  ⟨by decide, rfl⟩

/-- Merging the receiver's remaining entries against the other schema is
unaffected by an extra leading entry of the other schema whose key occurs
nowhere in the remaining entries. -/
theorem intersectDictSchema_skip (tl : DictSchema) (k : Leaf) (w : IRNode) (o : DictSchema)
    (h : dkeyAbsent tl k = true) :
    intersectDictSchema tl (.cons k w o) = intersectDictSchema tl o := by
  cases tl with
  | nil => rfl
  | cons k2 v2 tl2 =>
      rw [dkeyAbsent] at h
      rw [Bool.and_eq_true, Bool.not_eq_true', decide_eq_false_iff_not] at h
      have hk : ¬ (k = k2) := fun he => h.1 he.symm
      simp [intersectDictSchema, DictSchema.lookup, hk,
            intersectDictSchema_skip tl2 k w o h.2]

/-- With identical ordered key lists and (as in any actual Python dict)
pairwise-distinct keys on the receiver, the lookup-based per-key merge of
`DictNode.intersect_like` coincides with the positional merge. -/
theorem intersectDictSchema_eq_zipMerge (s : DictSchema) (o : DictSchema)
    (hk : s.keys = o.keys) (hd : dkeysDistinct s = true) :
    intersectDictSchema s o = zipMergeDictSchemas s o := by
  cases s with
  | nil =>
      cases o with
      | nil => rfl
      | cons k2 w tl2 => rfl
  | cons k v tl =>
      cases o with
      | nil => simp [DictSchema.keys] at hk
      | cons k2 w tl2 =>
          simp only [DictSchema.keys, List.cons.injEq] at hk
          obtain ⟨hk1, hk2⟩ := hk
          subst hk1
          rw [dkeysDistinct, Bool.and_eq_true] at hd
          simp [intersectDictSchema, zipMergeDictSchemas, DictSchema.lookup,
                intersectDictSchema_skip tl k w tl2 hd.1,
                intersectDictSchema_eq_zipMerge tl tl2 hk2 hd.2]

/-- C3, amended. Intersection of two `DictNode`s succeeds exactly for
identical ordered key lists — equal key sets listed in different orders
raise `IRNodeError` (the specification's `ConflictingConstraint`), like
genuinely different key sets — and, when the ordered key lists coincide (and
the receiver's keys are distinct, as in any schema built as an actual
Python dict), the result merges the child schemas per key, positionally and
recursively. -/
theorem c3_dict_intersect_key_lists (s o : DictSchema) :
    (DictSchema.keys s ≠ DictSchema.keys o →
      intersect (.dictNode s) (.dictNode o) = .error .irNodeError)
    ∧ (DictSchema.keys s = DictSchema.keys o → dkeysDistinct s = true →
      intersect (.dictNode s) (.dictNode o)
        = Except.map IRNode.dictNode (zipMergeDictSchemas s o)) := by
  constructor
  · intro h
    simp [intersect, h]
  · intro hk hd
    simp [intersect, hk, intersectDictSchema_eq_zipMerge s o hk hd]

/-- Witness for C3 (amended): the failure direction at two single-key
schemas with different keys, and the success direction at two two-key
schemas with the same ordered key list. -/
theorem c3_dict_intersect_key_lists_witness :
    intersect (.dictNode (.cons (.str "a") .abstractStrNode .nil))
        (.dictNode (.cons (.str "b") .abstractStrNode .nil)) = .error .irNodeError
    ∧ intersect
        (.dictNode (.cons (.str "a") (.abstractIntNode none (some 10))
          (.cons (.str "b") .abstractStrNode .nil)))
        (.dictNode (.cons (.str "a") (.abstractIntNode (some 0) none)
          (.cons (.str "b") .abstractStrNode .nil)))
      = Except.map IRNode.dictNode (zipMergeDictSchemas
          (.cons (.str "a") (.abstractIntNode none (some 10))
            (.cons (.str "b") .abstractStrNode .nil))
          (.cons (.str "a") (.abstractIntNode (some 0) none)
            (.cons (.str "b") .abstractStrNode .nil))) :=
  ⟨(c3_dict_intersect_key_lists (.cons (.str "a") .abstractStrNode .nil)
      (.cons (.str "b") .abstractStrNode .nil)).1 (by decide),
   (c3_dict_intersect_key_lists
      (.cons (.str "a") (.abstractIntNode none (some 10))
        (.cons (.str "b") .abstractStrNode .nil))
      (.cons (.str "a") (.abstractIntNode (some 0) none)
        (.cons (.str "b") .abstractStrNode .nil))).2 rfl rfl⟩

/-- C5, counterexample. `IntNode(1).test(True)` returns `True`: Python's
`bool` is a subclass of `int`, so the `isinstance` guard passes and
`True == 1` holds — the claim requires `False` for every value that is not
an integer, including the boolean `True`. -/
theorem c5_literal_test_bool_counterexample :
    test (.intNode 1) (.leaf (.bool true)) = true := rfl

/-- C5, amended. `LiteralNode(v).test(v)` is always true, and
`LiteralNode(v).test(w)` is true exactly when `w` equals `v` and has the
bound kind — except that an `IntNode` additionally accepts a boolean whose
numeric value equals the bound integer (`bool` being a Python subclass of
`int`); the boolean, string and float nodes accept only their own kind. -/
theorem c5_literal_test_characterization :
    (∀ l : Leaf, test (LiteralNode l) (.leaf l) = true)
    ∧ (∀ (n : ℤ) (w : PyTree), test (.intNode n) w = true ↔
        (w = .leaf (.int n) ∨ ∃ b : Bool, w = .leaf (.bool b) ∧ bint b = n))
    ∧ (∀ (b : Bool) (w : PyTree), test (.boolNode b) w = true ↔ w = .leaf (.bool b))
    ∧ (∀ (s : String) (w : PyTree), test (.strNode s) w = true ↔ w = .leaf (.str s))
    ∧ (∀ (q : ℚ) (w : PyTree), test (.floatNode q) w = true ↔ w = .leaf (.float q)) := by
  refine ⟨fun l => ?_, fun n w => ?_, fun b w => ?_, fun s w => ?_, fun q w => ?_⟩
  · cases l <;> simp [LiteralNode, test]
  · cases w with
    | leaf l => cases l <;> simp [test]
    | list xs => simp [test]
    | dict es => simp [test]
  · cases w with
    | leaf l => cases l <;> simp [test]
    | list xs => simp [test]
    | dict es => simp [test]
  · cases w with
    | leaf l => cases l <;> simp [test]
    | list xs => simp [test]
    | dict es => simp [test]
  · cases w with
    | leaf l => cases l <;> simp [test]
    | list xs => simp [test]
    | dict es => simp [test]

mutual
/-- The node components of `walk` are exactly the `Literal` leaves of the
tree, in depth-first order. -/
theorem walk_map_snd (t : SNode) : (walk t).map Prod.snd = literalLeaves t := by
  cases t with
  | intNode v => rfl
  | stringNode v => rfl
  | boolNode v => rfl
  | floatNode v => rfl
  | dictNode cs =>
      simp only [walk, literalLeaves, List.map_map]
      exact walkChildren_map_snd cs
  | listNode cs =>
      simp only [walk, literalLeaves, List.map_map]
      exact walkList_map_snd cs
  | anyOfNode cs =>
      simp only [walk, literalLeaves, List.map_map]
      exact walkList_map_snd cs
/-- `walk_map_snd` over a dict's children. -/
theorem walkChildren_map_snd (cs : SChildren) :
    (walkChildren cs).map Prod.snd = literalLeavesChildren cs := by
  cases cs with
  | nil => rfl
  | cons k c tl =>
      simp only [walkChildren, literalLeavesChildren, List.map_append]
      rw [walk_map_snd c, walkChildren_map_snd tl]
/-- `walk_map_snd` over a list of children. -/
theorem walkList_map_snd (l : SList) :
    (walkList l).map Prod.snd = literalLeavesList l := by
  cases l with
  | nil => rfl
  | cons c tl =>
      simp only [walkList, literalLeavesList, List.map_append]
      rw [walk_map_snd c, walkList_map_snd tl]
end

mutual
/-- Every element of `literalLeaves` is a `Literal` node. -/
theorem literalLeaves_lit (t : SNode) : ∀ x ∈ literalLeaves t, isLiteral x = true := by
  cases t with
  | intNode v => intro x hx; rw [literalLeaves, List.mem_singleton] at hx; subst hx; rfl
  | stringNode v => intro x hx; rw [literalLeaves, List.mem_singleton] at hx; subst hx; rfl
  | boolNode v => intro x hx; rw [literalLeaves, List.mem_singleton] at hx; subst hx; rfl
  | floatNode v => intro x hx; rw [literalLeaves, List.mem_singleton] at hx; subst hx; rfl
  | dictNode cs => intro x hx; exact literalLeavesChildren_lit cs x hx
  | listNode cs => intro x hx; exact literalLeavesList_lit cs x hx
  | anyOfNode cs => intro x hx; exact literalLeavesList_lit cs x hx
/-- `literalLeaves_lit` over a dict's children. -/
theorem literalLeavesChildren_lit (cs : SChildren) :
    ∀ x ∈ literalLeavesChildren cs, isLiteral x = true := by
  cases cs with
  | nil => intro x hx; cases hx
  | cons k c tl =>
      intro x hx
      rw [literalLeavesChildren, List.mem_append] at hx
      rcases hx with h | h
      · exact literalLeaves_lit c x h
      · exact literalLeavesChildren_lit tl x h
/-- `literalLeaves_lit` over a list of children. -/
theorem literalLeavesList_lit (l : SList) :
    ∀ x ∈ literalLeavesList l, isLiteral x = true := by
  cases l with
  | nil => intro x hx; cases hx
  | cons c tl =>
      intro x hx
      rw [literalLeavesList, List.mem_append] at hx
      rcases hx with h | h
      · exact literalLeaves_lit c x h
      · exact literalLeavesList_lit tl x h
end

/-- Every pair yielded by `walk` carries a `Literal` node as its node
component. -/
theorem walk_all_literal (t : SNode) :
    ((walk t).all fun pn => isLiteral pn.2) = true := by
  rw [List.all_eq_true]
  intro pn hpn
  have hx : pn.2 ∈ (walk t).map Prod.snd := List.mem_map_of_mem Prod.snd hpn
  rw [walk_map_snd t] at hx
  exact literalLeaves_lit t pn.2 hx

/-- C7, counterexample. Walking a two-key `DictNode` with two `Literal`
leaves yields exactly the two (ancestor-path, leaf) pairs — the `DictNode`
itself appears only inside the paths and never as the yielded node, so a
branch node does not "appear as the yielded node exactly once" as the claim
requires. -/
theorem c7_walk_branch_counterexample :
    walk (.dictNode (.cons "a" (.intNode (some 1)) (.cons "b" (.stringNode (some "x")) .nil)))
      = [([.dictNode (.cons "a" (.intNode (some 1)) (.cons "b" (.stringNode (some "x")) .nil))],
          .intNode (some 1)),
         ([.dictNode (.cons "a" (.intNode (some 1)) (.cons "b" (.stringNode (some "x")) .nil))],
          .stringNode (some "x"))]
    ∧ SNode.dictNode (.cons "a" (.intNode (some 1)) (.cons "b" (.stringNode (some "x")) .nil))
        ∉ (walk (.dictNode (.cons "a" (.intNode (some 1))
            (.cons "b" (.stringNode (some "x")) .nil)))).map Prod.snd :=
  ⟨rfl, by simp [walk, walkChildren]⟩

/-- C7, amended. `walk` yields a finite, depth-first sequence of
(ancestor-path, node) pairs whose node components are exactly the `Literal`
leaves of the tree, each leaf position exactly once; branch nodes appear
only inside the ancestor paths, never as the yielded node. (The embedding
is a pure function of the immutable tree, so re-walking the same tree
trivially reproduces the identical sequence.) -/
theorem c7_walk_yields_leaves (t : SNode) :
    (walk t).map Prod.snd = literalLeaves t
    ∧ ((walk t).all fun pn => isLiteral pn.2) = true :=
  ⟨walk_map_snd t, walk_all_literal t⟩

/-- Python `==` on leaves is reflexive (no NaN in the model). -/
theorem leafPyEq_refl (l : Leaf) : leafPyEq l l = true := by
  cases l <;> simp [leafPyEq]

/-- The schema list built by `pytree_to_schema` has the length of the
source list. -/
theorem pytreeListSchemas_length (xs : PyList) :
    ListSchema.length (pytreeListSchemas xs) = PyList.length xs := by
  cases xs with
  | nil => rfl
  | cons x tl =>
      simp [pytreeListSchemas, ListSchema.length, PyList.length, pytreeListSchemas_length tl]

/-- The schema dict built by `pytree_to_schema` has the length of the source
dict. -/
theorem pytreeDictSchemas_length (es : PyEntries) :
    DictSchema.length (pytreeDictSchemas es) = PyEntries.length es := by
  cases es with
  | nil => rfl
  | cons k v tl =>
      simp [pytreeDictSchemas, DictSchema.length, PyEntries.length, pytreeDictSchemas_length tl]

/-- Lookups that agree on `es` still agree after `es` gains a leading entry
whose key hits none of the queried keys. -/
theorem lookup_agree_extend (es2 es : PyEntries) (k : Leaf) (v : PyTree)
    (h : entriesLookupAgree es2 es) (habs : keyAbsent es2 k = true) :
    entriesLookupAgree es2 (.cons k v es) := by
  cases es2 with
  | nil => trivial
  | cons k2 v2 tl =>
      rw [keyAbsent, Bool.and_eq_true, Bool.not_eq_true'] at habs
      have h2 : PyEntries.lookup es k2 = some v2 ∧ entriesLookupAgree tl es := h
      exact ⟨by simp [PyEntries.lookup, habs.1, h2.1],
             lookup_agree_extend tl es k v h2.2 habs.2⟩

/-- In a dict with pairwise non-`==` keys (any actual Python dict), looking
up each stored key returns that entry's own value. -/
theorem keysDistinct_lookupAgree (es : PyEntries) (h : keysDistinct es = true) :
    entriesLookupAgree es es := by
  cases es with
  | nil => trivial
  | cons k v tl =>
      rw [keysDistinct, Bool.and_eq_true] at h
      exact ⟨by simp [PyEntries.lookup, leafPyEq_refl],
             lookup_agree_extend tl tl k v (keysDistinct_lookupAgree tl h.2) h.1⟩

mutual
/-- Round trip of schema derivation and validation on any Python-represent-
able pytree. -/
theorem wf_test_aux (v : PyTree) (h : wf v = true) :
    test (pytree_to_schema v) v = true := by
  cases v with
  | leaf l => cases l <;> simp [pytree_to_schema, LiteralNode, test]
  | list xs =>
      rw [wf] at h
      simp [pytree_to_schema, test, pytreeListSchemas_length, wf_test_list xs h]
  | dict es =>
      rw [wf, Bool.and_eq_true] at h
      simp [pytree_to_schema, test, pytreeDictSchemas_length,
            wf_test_entries es es h.2 (keysDistinct_lookupAgree es h.1)]
/-- `wf_test_aux` along the `zip` of a list's derived schemas. -/
theorem wf_test_list (xs : PyList) (h : wfList xs = true) :
    testListZip (pytreeListSchemas xs) xs = true := by
  cases xs with
  | nil => rfl
  | cons x tl =>
      rw [wfList, Bool.and_eq_true] at h
      simp [pytreeListSchemas, testListZip, wf_test_aux x h.1, wf_test_list tl h.2]
/-- `wf_test_aux` along the per-key loop of a dict's derived schema, for any
target dict whose lookups return the original entries. -/
theorem wf_test_entries (es2 es : PyEntries) (h : wfEntries es2 = true)
    (hlk : entriesLookupAgree es2 es) :
    testDictSchema (pytreeDictSchemas es2) es = true := by
  cases es2 with
  | nil => rfl
  | cons k v tl =>
      rw [wfEntries, Bool.and_eq_true] at h
      have hlk2 : PyEntries.lookup es k = some v ∧ entriesLookupAgree tl es := hlk
      simp [pytreeDictSchemas, testDictSchema, hlk2.1, wf_test_aux v h.1,
            wf_test_entries tl es h.2 hlk2.2]
end

/-- C6. For every pytree representable as an actual Python value (every
dict in it has pairwise non-`==` keys, which Python dicts guarantee),
deriving a schema from the value and testing the same value succeeds:
`pytree_to_schema(v).test(v)` is true. -/
theorem c6_fromValue_test (v : PyTree) (h : wf v = true) :
    test (pytree_to_schema v) v = true := wf_test_aux v h

/-- Witness for C6 at the concrete pytree
`{"a": 1, "b": ["x"]}`. -/
theorem c6_fromValue_test_witness :
    wf (.dict (.cons (.str "a") (.leaf (.int 1))
        (.cons (.str "b") (.list (.cons (.leaf (.str "x")) .nil)) .nil))) = true
    ∧ test (pytree_to_schema (.dict (.cons (.str "a") (.leaf (.int 1))
        (.cons (.str "b") (.list (.cons (.leaf (.str "x")) .nil)) .nil))))
        (.dict (.cons (.str "a") (.leaf (.int 1))
        (.cons (.str "b") (.list (.cons (.leaf (.str "x")) .nil)) .nil))) = true :=
  ⟨rfl, c6_fromValue_test (.dict (.cons (.str "a") (.leaf (.int 1))
        (.cons (.str "b") (.list (.cons (.leaf (.str "x")) .nil)) .nil))) rfl⟩
